import Mathlib

/-!
Shallow embedding of the document-ingestion and retrieval-augmented-query core of
the LearnAbility backend (the `milvus` service, the ingestion handler and the
query handler), together with proofs about the claims of the specification.

External effects (the Vertex AI predict call, the Milvus engine, the relational
store, text extraction, the LangChain text splitter) are parameters of the
embedded functions: each run is a pure function of the outcomes those external
collaborators would produce.  `Except.error` models a thrown JS exception,
`Option.none` models a falsy (`undefined`/`null`/empty) JS value at the points
where the source only ever tests truthiness.
-/

deriving instance DecidableEq for Except

namespace LearnAbility

/-- Embedding vectors: fixed-dimension numeric vectors.  The code only ever
passes them around (no arithmetic), so the payload type is `List Int`. -/
abbrev Vec := List Int

/-- JS `texts.split(';')` on the underlying character list
(gemini.service.ts:147).  `split` with a one-character separator yields the
(possibly empty) maximal segments between occurrences of the separator and is
never the empty list. -/
def splitSemiAux : List Char → List (List Char)
  | [] => [[]]
  | c :: cs =>
    match splitSemiAux cs with
    | [] => [[]]
    | r :: rs => if c = ';' then [] :: r :: rs else (c :: r) :: rs

/-- gemini.service.ts:147 `texts.split(';')` lifted to `String`. -/
def splitSemi (s : String) : List String :=
  (splitSemiAux s.data).map fun cs => String.mk cs

/-- The segment of a text preceding its first `';'` (the whole text when it has
no `';'`): the first instance sent to the embedding model. -/
def firstSegment (t : String) : String :=
  (splitSemi t).headD ""

/-- gemini.service.ts:131-162 `getEmbeddings`.  The external
`PredictionServiceClient.predict` call is the parameter `predict`, taking the
instance contents (the semicolon-split segments of the input, line 147) to
either a thrown error or one embedding vector per instance.  The function
returns `embeddings[0]` (line 161): `.error` models the call throwing,
`.ok none` the undefined result when no prediction comes back. -/
def getEmbeddings (predict : List String → Except String (List Vec))
    (texts : String) : Except String (Option Vec) :=
  match predict (splitSemi texts) with
  | .error e => .error e
  | .ok preds => .ok preds.head?

/-- A per-segment embedding oracle lifted to the shape of the external predict
call: every instance succeeds and gets its own vector. -/
def goodPredict (embed : String → Vec) : List String → Except String (List Vec) :=
  fun segs => .ok (segs.map embed)

/-! ### Vector store state -/

/-- One entity of the `learnability_sources` collection, with the fields
inserted at milvus.ts:44-53.  The JSON `metadata` column (chunk index plus the
subject/data-source ids repeated at milvus.ts:36-40) is represented by its one
independent datum, the chunk index. -/
structure ChunkRow where
  text : String
  embedding : Vec
  user_id : String
  subject_id : String
  data_source_id : String
  chunk_id : Nat
  deriving Repr, DecidableEq

/-- The observable state of the Milvus deployment: whether the collection and
the embedding index exist, and the stored entities. -/
structure MilvusState where
  collectionExists : Bool
  indexExists : Bool
  rows : List ChunkRow
  deriving Repr, DecidableEq

/-- One chunk produced by the splitter, as handed to `insertEmbeddings`
(source.handler.ts:34-37): the chunk text and its sequence index. -/
structure ChunkDoc where
  pageContent : String
  chunk_id : Nat
  deriving Repr, DecidableEq

/-- The loop body of milvus.ts:31-57: embed each chunk and insert it.  A falsy
embedding skips the chunk (`if (!embedding) continue`, line 34); a thrown error
aborts the loop and is caught by the surrounding `catch` (lines 59-61), which
only logs, so the function returns normally with whatever rows were inserted
before the failure. -/
def insertLoop (predict : List String → Except String (List Vec))
    (userId : String) (subjectId : Option String) (dataSourceId : String) :
    List ChunkDoc → MilvusState → MilvusState
  | [], st => st
  | d :: ds, st =>
    match getEmbeddings predict d.pageContent with
    | .error _ => st
    | .ok none => insertLoop predict userId subjectId dataSourceId ds st
    | .ok (some emb) =>
      insertLoop predict userId subjectId dataSourceId ds
        { st with rows := st.rows ++
            [⟨d.pageContent, emb, userId, subjectId.getD "", dataSourceId, d.chunk_id⟩] }

/-- milvus.ts:21-62 `insertEmbeddings`: embeds every chunk and inserts a row per
chunk (subject id stored as `metadata.subjectId || ''`, line 50).  Its
`try`/`catch` swallows every error, so the embedded function has no error
channel: it always returns a state. -/
def insertEmbeddings (predict : List String → Except String (List Vec))
    (documents : List ChunkDoc) (userId : String) (subjectId : Option String)
    (dataSourceId : String) (st : MilvusState) : MilvusState :=
  insertLoop predict userId subjectId dataSourceId documents st

/-! ### Ingestion pipeline -/

/-- Prisma `DataSourceStatus` (schema enum used at source.handler.ts:49,59). -/
inductive DataSourceStatus
  | PROCESSING
  | COMPLETED
  | ERROR
  | READY
  deriving Repr, DecidableEq

/-- The fields of the data-source record that `processFileAsync` updates. -/
structure DocRecord where
  content : Option String
  status : DataSourceStatus
  deriving Repr, DecidableEq

/-- The external collaborators of one ingestion run
(source.handler.ts:13-65): the outcome of `extractTextFromDocument` for this
file, the external LangChain `RecursiveCharacterTextSplitter` (chunk texts in
order), the result of the `db.dataSource.findUnique` subject lookup, and the
embedding predict call. -/
structure IngestEnv where
  predict : List String → Except String (List Vec)
  extract : Except String String
  splitter : String → List String
  subjectId : Option String

/-- source.handler.ts:13-65 `processFileAsync`: extract text, split it into
indexed chunks (lines 28-37), insert the embeddings (line 40, which never
throws, see `insertEmbeddings`), then update the record to COMPLETED with the
extracted text (lines 45-51); any exception reaching the handler is caught and
the record is updated to ERROR with the failure reason as content
(lines 52-61).  Database updates are modelled as always succeeding. -/
def processFileAsync (env : IngestEnv) (dataSourceId userId : String)
    (st : MilvusState) : DocRecord × MilvusState :=
  match env.extract with
  | .error e => (⟨some ("Error processing: " ++ e), .ERROR⟩, st)
  | .ok extractedText =>
    let chunks := env.splitter extractedText
    let output := chunks.enum.map fun p => (⟨p.2, p.1⟩ : ChunkDoc)
    let st1 := insertEmbeddings env.predict output userId env.subjectId dataSourceId st
    (⟨some extractedText, .COMPLETED⟩, st1)

/-! ### Filtered similarity search -/

/-- One hit of a Milvus search, as projected at milvus.ts:132-136
(`text`, `score`, `metadata`); the JSON metadata is represented by the chunk
index as in `ChunkRow`.  Scores are an opaque payload here (`Int`), since the
code never computes with them. -/
structure SearchHit where
  text : String
  score : Int
  chunk_id : Nat
  deriving Repr, DecidableEq

/-- One `client.search` request issued by `searchMilvus`
(milvus.ts:112-118 and 143-149): the filter expression, the `limit` and the
query vector. -/
structure SearchReq where
  filter : String
  topK : Nat
  vector : Vec
  deriving Repr, DecidableEq

/-- The outcome of one engine search: a result list, an exception whose text
contains `IndexNotExist` (milvus.ts:138), or any other exception. -/
inductive SearchOutcome
  | ok (hits : List SearchHit)
  | indexMissing
  | err (msg : String)
  deriving Repr, DecidableEq

/-- The external collaborators of a `searchMilvus` run: whether
`showCollections` lists the collection (milvus.ts:75-76), whether
`loadCollection` succeeds (line 83), the embedding predict call, the engine
search (line 112), and the engine search re-issued after the self-healing
`createIndex` (lines 140-149; a failure of that `createIndex` call itself also
lands in the `.error` case, since either way the run returns `[]`). -/
structure MilvusEnv where
  collectionExists : Bool
  loadOk : Bool
  predict : List String → Except String (List Vec)
  search : SearchReq → SearchOutcome
  retrySearch : SearchReq → Except String (List SearchHit)

/-- The tenant-equality clause every filter starts with (milvus.ts:99). -/
def userClause (userId : String) : String :=
  "user_id == \"" ++ userId ++ "\""

/-- The document-id disjunction of milvus.ts:102:
`dataSourceIds.map((id) => ...).join(' || ')`. -/
def dsClause (ids : List String) : String :=
  String.intercalate " || " (ids.map fun id => "data_source_id == \"" ++ id ++ "\"")

/-- milvus.ts:99-106: the search filter string.  Tenant equality always;
conjoined with the document-id disjunction when `dataSourceIds` is a nonempty
list, else with subject equality when `subjectId` is truthy. -/
def buildFilter (userId : String) (subjectId : Option String)
    (dataSourceIds : Option (List String)) : String :=
  match dataSourceIds with
  | some (i :: is) => userClause userId ++ " && (" ++ dsClause (i :: is) ++ ")"
  | _ =>
    match subjectId with
    | some s => userClause userId ++ " && subject_id == \"" ++ s ++ "\""
    | none => userClause userId

/-- The value of one `searchMilvus` run: the returned hits, the engine search
requests it issued in order, and how many subject fallback recursions
(milvus.ts:125) it took. -/
structure SearchRun where
  results : List SearchHit
  requests : List SearchReq
  fallbacks : Nat
  deriving Repr, DecidableEq

/-- The body of milvus.ts:64-172 `searchMilvus` (options destructured as at
line 90), with the value of the recursive fallback call (line 125) abstracted
as `fb`.  Control flow: missing collection returns `[]` (lines 76-79); a
failed `loadCollection` returns `[]` (lines 85-88); a throwing or falsy query
embedding returns `[]` (the outer catch at 168-171, resp. lines 94-97); then
one engine search under the built filter.  An empty result falls back to `fb`
exactly when `dataSourceIds` is a nonempty list and `subjectId` is truthy
(lines 120-128); an `IndexNotExist` failure re-creates the index and retries
the same request once, any failure of that path returning `[]`
(lines 137-164); any other search failure returns `[]` (lines 165-166). -/
def searchMilvusCore (env : MilvusEnv) (queryText userId : String) (topK : Nat)
    (subjectId : Option String) (dataSourceIds : Option (List String))
    (fb : SearchRun) : SearchRun :=
  if ¬ env.collectionExists then ⟨[], [], 0⟩
  else if ¬ env.loadOk then ⟨[], [], 0⟩
  else
    match getEmbeddings env.predict queryText with
    | .error _ => ⟨[], [], 0⟩
    | .ok none => ⟨[], [], 0⟩
    | .ok (some v) =>
      match env.search ⟨buildFilter userId subjectId dataSourceIds, topK, v⟩ with
      | .ok [] =>
        match dataSourceIds with
        | some (_ :: _) =>
          match subjectId with
          | some _ =>
            ⟨fb.results,
              ⟨buildFilter userId subjectId dataSourceIds, topK, v⟩ :: fb.requests,
              fb.fallbacks + 1⟩
          | none => ⟨[], [⟨buildFilter userId subjectId dataSourceIds, topK, v⟩], 0⟩
        | _ => ⟨[], [⟨buildFilter userId subjectId dataSourceIds, topK, v⟩], 0⟩
      | .ok (h :: hs) =>
        ⟨h :: hs, [⟨buildFilter userId subjectId dataSourceIds, topK, v⟩], 0⟩
      | .indexMissing =>
        match env.retrySearch ⟨buildFilter userId subjectId dataSourceIds, topK, v⟩ with
        | .ok hits =>
          ⟨hits, [⟨buildFilter userId subjectId dataSourceIds, topK, v⟩,
            ⟨buildFilter userId subjectId dataSourceIds, topK, v⟩], 0⟩
        | .error _ =>
          ⟨[], [⟨buildFilter userId subjectId dataSourceIds, topK, v⟩,
            ⟨buildFilter userId subjectId dataSourceIds, topK, v⟩], 0⟩
      | .err _ => ⟨[], [⟨buildFilter userId subjectId dataSourceIds, topK, v⟩], 0⟩

/-- milvus.ts:64-172 `searchMilvus`.  The source is one recursive function
whose single recursive call (line 125) passes the same `topK`, the same
(truthy) subject and no `dataSourceIds`; a run without `dataSourceIds` never
takes the fallback branch again, so the recursion has depth at most one and
is embedded as the body applied twice (the inner run's own fallback value is
never consulted and is the empty run). -/
def searchMilvus (env : MilvusEnv) (queryText userId : String) (topK : Nat)
    (subjectId : Option String) (dataSourceIds : Option (List String)) :
    SearchRun :=
  searchMilvusCore env queryText userId topK subjectId dataSourceIds
    (searchMilvusCore env queryText userId topK subjectId none ⟨[], [], 0⟩)

/-- The options record the query handler builds (query.handler.ts:44-50);
`topK` defaults to 2 inside `searchMilvus` (milvus.ts:90), the handler always
passes 3. -/
structure SearchOptions where
  topK : Nat := 2
  subjectId : Option String := none
  dataSourceIds : Option (List String) := none
  deriving Repr, DecidableEq

/-- `searchMilvus` applied to an options record. -/
def searchMilvusOpts (env : MilvusEnv) (queryText userId : String)
    (opts : SearchOptions) : SearchRun :=
  searchMilvus env queryText userId opts.topK opts.subjectId opts.dataSourceIds

/-! ### Query handler -/

/-- The external collaborators of one `answerUserQuery` run
(query.handler.ts:25-150): the Milvus environment, the
`db.dataSource.findMany({ userId, subjectId })` id lookup for the handler's
fixed user (line 58-63), whether the generative model was initialized
(line 37), and the `generateContent` call on the assembled context and
question (`.error` a thrown call, `.ok none` an empty candidate list,
`.ok (some a)` the answer text). -/
structure QueryEnv where
  menv : MilvusEnv
  dataSourceIdsFor : String → List String
  modelInitialized : Bool
  generate : String → String → Except String (Option String)

/-- The JSON response of `answerUserQuery`: HTTP status, `success` flag, the
error `message` when present, the `answer` text when present, and
`relevanceScore` when present. -/
structure QueryResponse where
  status : Nat
  success : Bool
  message : Option String
  answer : Option String
  relevanceScore : Option Int
  deriving Repr, DecidableEq

/-- The canned answer of query.handler.ts:81 when no context chunk is found. -/
def noContextAnswer : String :=
  "I couldn\x27t find any relevant information related to your question in the materials for this subject. Would you like to add more materials on this topic?"

/-- The canned answer of query.handler.ts:135-136 when the search block threw. -/
def troubleAnswer : String :=
  "I\x27m having trouble searching through your materials right now. This could be because the vector database is still initializing or needs maintenance. Please try again in a few moments."

/-- query.handler.ts:44-72: the search options.  `topK` is 3; when a subject is
given, the tenant's data-source ids under that subject are looked up; a
nonempty id list becomes `dataSourceIds`, an empty one degrades to
`subjectId`; without a subject neither is set.  Note the two option fields are
never both set. -/
def queryOptions (env : QueryEnv) (subjectId : Option String) : SearchOptions :=
  match subjectId with
  | none => { topK := 3 }
  | some s =>
    let ids := env.dataSourceIdsFor s
    if ids.isEmpty then { topK := 3, subjectId := some s }
    else { topK := 3, dataSourceIds := some ids }

/-- query.handler.ts:25-150 `answerUserQuery`.  A missing/falsy `query` is a
400 (lines 30-35); an uninitialized model a 500 (lines 37-42); an empty search
result the 200 no-context answer (lines 78-86); a throwing `generateContent` is
caught by the search-block catch and answered 200 with the trouble message
(lines 131-141); an empty candidate list a 500 (lines 115-120); otherwise 200
with the model answer and the top hit's score (lines 124-130). -/
def answerUserQuery (env : QueryEnv) (userId : String) (query : Option String)
    (subjectId : Option String) : QueryResponse :=
  match query with
  | none => ⟨400, false, some "Query is required and must be a string", none, none⟩
  | some q =>
    if ¬ env.modelInitialized then
      ⟨500, false, some "Gemini model not initialized", none, none⟩
    else
      let run := searchMilvusOpts env.menv q userId (queryOptions env subjectId)
      match run.results with
      | [] => ⟨200, true, none, some noContextAnswer, some 0⟩
      | h :: t =>
        let contextText := String.intercalate "\n\n" ((h :: t).map fun c => c.text)
        match env.generate contextText q with
        | .error _ => ⟨200, true, none, some troubleAnswer, some 0⟩
        | .ok none => ⟨500, false, some "No response generated from AI", none, none⟩
        | .ok (some a) => ⟨200, true, none, some a, some h.score⟩

/-! ### Administrative index reset -/

/-- The external failure modes of the collection/index administration calls:
`none` means the call succeeds, `some e` that it throws with message `e`. -/
structure AdminEnv where
  showErr : Option String
  createCollErr : Option String
  dropIdxErr : Option String
  describeIdxFails : Bool
  createIdxErr : Option String
  loadErr : Option String

/-- milvus.ts:237-281 `createCollection`: list the collections (a throw
propagates), skip when the collection exists, else create it (a throw
propagates, line 279).  Creating the collection never touches stored rows. -/
def createCollection (env : AdminEnv) (st : MilvusState) :
    Except String MilvusState :=
  match env.showErr with
  | some e => .error e
  | none =>
    if st.collectionExists then .ok st
    else
      match env.createCollErr with
      | some e => .error e
      | none => .ok { st with collectionExists := true }

/-- milvus.ts:283-322 `createIndex`: list the collections (a throw
propagates); a missing collection is a no-op (lines 287-290); a failing
`describeIndex` is swallowed and creation proceeds (lines 305-307); an
existing embedding index is a no-op (lines 301-304); else the index is created
(a throw propagates, line 320). -/
def createIndex (env : AdminEnv) (st : MilvusState) :
    Except String MilvusState :=
  match env.showErr with
  | some e => .error e
  | none =>
    if ¬ st.collectionExists then .ok st
    else if st.indexExists ∧ ¬ env.describeIdxFails then .ok st
    else
      match env.createIdxErr with
      | some e => .error e
      | none => .ok { st with indexExists := true }

/-- The `try client.dropIndex catch log` step of milvus.ts:214-221: a throw is
swallowed, success removes the index; rows are untouched either way. -/
def dropIndexStep (env : AdminEnv) (st : MilvusState) : MilvusState :=
  match env.dropIdxErr with
  | some _ => st
  | none => { st with indexExists := false }

/-- The `{ success, message }` record returned by `resetMilvusIndex`
(milvus.ts:230,233). -/
structure ResetResult where
  success : Bool
  message : String
  deriving Repr, DecidableEq

/-- milvus.ts:206-235 `resetMilvusIndex`: list the collections; create the
collection if absent, else drop the index (errors swallowed); re-create the
index; load the collection; return success — any propagating throw is caught
and returned as `{ success: false, message }` (lines 231-234). -/
def resetMilvusIndex (env : AdminEnv) (st : MilvusState) :
    MilvusState × ResetResult :=
  match env.showErr with
  | some e => (st, ⟨false, e⟩)
  | none =>
    let step1 : Except String MilvusState :=
      if ¬ st.collectionExists then createCollection env st
      else .ok (dropIndexStep env st)
    match step1 with
    | .error e => (st, ⟨false, e⟩)
    | .ok st1 =>
      match createIndex env st1 with
      | .error e => (st1, ⟨false, e⟩)
      | .ok st2 =>
        match env.loadErr with
        | some e => (st2, ⟨false, e⟩)
        | none => (st2, ⟨true, "Milvus index reset successfully"⟩)

/-! ### The chunker, modelled from the spec -/

/-- Overlapping fixed-size windows over a character list: 2000-character
segments starting every 1800 characters, so consecutive segments overlap by
200; a text of at most one segment is a single chunk. -/
def chunkWindows (cs : List Char) : List (List Char) :=
  if _h : cs.length ≤ 2000 then [cs]
  else cs.take 2000 :: chunkWindows (cs.drop 1800)
termination_by cs.length
decreasing_by simp [List.length_drop]; omega

/-- Modelled from the spec: the Chunker of spec section 4.1.  The repository
delegates chunking to the external `RecursiveCharacterTextSplitter` library
(source.handler.ts:28-33), whose code is not part of this repository's
sources; per the spec, empty text yields the empty sequence, text no longer
than one segment (2000 characters) yields a single chunk equal to the input,
and longer text is split into 2000-character segments overlapping by 200
(the spec's last-priority, character-boundary strategy). -/
def chunkText (text : String) : List String :=
  if text.data.isEmpty then []
  else (chunkWindows text.data).map fun cs => String.mk cs

/-! ### Helper lemmas -/

theorem splitSemiAux_ne_nil (cs : List Char) : splitSemiAux cs ≠ [] := by
  induction cs with
  | nil => simp [splitSemiAux]
  | cons c cs ih =>
    simp only [splitSemiAux]
    cases h : splitSemiAux cs with
    | nil => simp
    | cons r rs =>
      by_cases hc : c = ';'
      · simp [hc]
      · simp [hc]

theorem splitSemiAux_head_le (cs : List Char) :
    ((splitSemiAux cs).headD []).length ≤ cs.length := by
  induction cs with
  | nil => simp [splitSemiAux]
  | cons c cs ih =>
    simp only [splitSemiAux]
    cases h : splitSemiAux cs with
    | nil => simp
    | cons r rs =>
      rw [h] at ih
      have hr : r.length ≤ cs.length := by simpa using ih
      by_cases hc : c = ';'
      · simp [hc]
      · simp [hc]; omega

theorem splitSemiAux_head_lt (cs : List Char) (hmem : ';' ∈ cs) :
    ((splitSemiAux cs).headD []).length < cs.length := by
  induction cs with
  | nil => cases hmem
  | cons c cs ih =>
    simp only [splitSemiAux]
    cases h : splitSemiAux cs with
    | nil => exact absurd h (splitSemiAux_ne_nil cs)
    | cons r rs =>
      by_cases hc : c = ';'
      · simp [hc]
      · have hmem' : ';' ∈ cs := by
          cases hmem with
          | head => exact absurd rfl hc
          | tail _ hm => exact hm
        have := ih hmem'
        rw [h] at this
        simpa [hc] using Nat.succ_lt_succ this

theorem splitSemi_ne_nil (s : String) : splitSemi s ≠ [] := by
  simp [splitSemi, splitSemiAux_ne_nil]

theorem firstSegment_eq (t : String) :
    firstSegment t = String.mk ((splitSemiAux t.data).headD []) := by
  unfold firstSegment splitSemi
  cases h : splitSemiAux t.data with
  | nil => exact absurd h (splitSemiAux_ne_nil t.data)
  | cons r rs => simp

theorem firstSegment_length_lt (t : String) (hmem : ';' ∈ t.data) :
    (firstSegment t).length < t.length := by
  rw [firstSegment_eq]
  show ((splitSemiAux t.data).headD []).length < t.data.length
  exact splitSemiAux_head_lt t.data hmem

theorem getEmbeddings_goodPredict (embed : String → Vec) (t : String) :
    getEmbeddings (goodPredict embed) t = .ok (some (embed (firstSegment t))) := by
  unfold getEmbeddings goodPredict firstSegment
  cases h : splitSemi t with
  | nil => exact absurd h (splitSemi_ne_nil t)
  | cons r rs => simp

theorem buildFilter_starts_with_userClause (u : String) (sid : Option String)
    (dsids : Option (List String)) :
    ∃ rest, buildFilter u sid dsids = userClause u ++ rest := by
  unfold buildFilter
  rcases dsids with _ | (_ | ⟨i, is⟩) <;> rcases sid with _ | s
  · exact ⟨"", by simp⟩
  · exact ⟨" && subject_id == \"" ++ s ++ "\"", by simp [String.append_assoc]⟩
  · exact ⟨"", by simp⟩
  · exact ⟨" && subject_id == \"" ++ s ++ "\"", by simp [String.append_assoc]⟩
  · exact ⟨" && (" ++ dsClause (i :: is) ++ ")", by simp [String.append_assoc]⟩
  · exact ⟨" && (" ++ dsClause (i :: is) ++ ")", by simp [String.append_assoc]⟩

/-- Every engine request issued by the body is either inherited from the
abstracted fallback value or carries the run's own filter and query vector. -/
theorem searchMilvusCore_requests (env : MilvusEnv) (q u : String) (k : Nat)
    (sid : Option String) (dsids : Option (List String)) (fb : SearchRun)
    (r : SearchReq)
    (hr : r ∈ (searchMilvusCore env q u k sid dsids fb).requests) :
    r ∈ fb.requests ∨
      ∃ v, getEmbeddings env.predict q = .ok (some v) ∧
        r = ⟨buildFilter u sid dsids, k, v⟩ := by
  unfold searchMilvusCore at hr
  by_cases hc : env.collectionExists
  · by_cases hl : env.loadOk
    · simp only [hc, hl, not_true, if_false, ite_false, if_neg] at hr
      cases he : getEmbeddings env.predict q with
      | error e => rw [he] at hr; simp at hr
      | ok o =>
        cases o with
        | none => rw [he] at hr; simp at hr
        | some v =>
          rw [he] at hr
          simp only at hr
          cases hs : env.search ⟨buildFilter u sid dsids, k, v⟩ with
          | ok hits =>
            cases hits with
            | nil =>
              rw [hs] at hr
              rcases dsids with _ | (_ | ⟨i, is⟩)
              · simp at hr; exact .inr ⟨v, rfl, hr⟩
              · simp at hr; exact .inr ⟨v, rfl, hr⟩
              · rcases sid with _ | s
                · simp at hr; exact .inr ⟨v, rfl, hr⟩
                · simp at hr
                  rcases hr with hr | hr
                  · exact .inr ⟨v, rfl, hr⟩
                  · exact .inl hr
            | cons h hs' =>
              rw [hs] at hr; simp at hr; exact .inr ⟨v, rfl, hr⟩
          | indexMissing =>
            rw [hs] at hr
            cases hretry : env.retrySearch ⟨buildFilter u sid dsids, k, v⟩ with
            | ok hits =>
              rw [hretry] at hr; simp at hr; exact .inr ⟨v, rfl, hr⟩
            | error e =>
              rw [hretry] at hr; simp at hr; exact .inr ⟨v, rfl, hr⟩
          | err m =>
            rw [hs] at hr; simp at hr; exact .inr ⟨v, rfl, hr⟩
    · simp [hc, hl] at hr
  · simp [hc] at hr

/-- Every engine request of a full `searchMilvus` run carries a filter that
begins with the tenant clause and the vector embedded from the query text. -/
theorem searchMilvus_requests_spec (env : MilvusEnv) (q u : String) (k : Nat)
    (sid : Option String) (dsids : Option (List String)) (r : SearchReq)
    (hr : r ∈ (searchMilvus env q u k sid dsids).requests) :
    (∃ rest, r.filter = userClause u ++ rest) ∧
      ∀ v, getEmbeddings env.predict q = .ok (some v) → r.vector = v := by
  unfold searchMilvus at hr
  rcases searchMilvusCore_requests env q u k sid dsids _ r hr with h | ⟨v, hv, rfl⟩
  · rcases searchMilvusCore_requests env q u k sid none _ r h with h2 | ⟨v, hv, rfl⟩
    · simp at h2
    · refine ⟨buildFilter_starts_with_userClause u sid none, fun v' hv' => ?_⟩
      rw [hv] at hv'; cases hv'; rfl
  · refine ⟨buildFilter_starts_with_userClause u sid dsids, fun v' hv' => ?_⟩
    rw [hv] at hv'; cases hv'; rfl

/-- A body run without a document-id list never consults the abstracted
fallback value. -/
theorem searchMilvusCore_none_fb (env : MilvusEnv) (q u : String) (k : Nat)
    (sid : Option String) (fb fb' : SearchRun) :
    searchMilvusCore env q u k sid none fb =
      searchMilvusCore env q u k sid none fb' := rfl

/-- A body run without a document-id list takes no fallback. -/
theorem searchMilvusCore_fallbacks_none (env : MilvusEnv) (q u : String)
    (k : Nat) (sid : Option String) (fb : SearchRun) :
    (searchMilvusCore env q u k sid none fb).fallbacks = 0 := by
  unfold searchMilvusCore
  (repeat' split)
  all_goals simp_all

/-- The body takes at most one more fallback than its abstracted value. -/
theorem searchMilvusCore_fallbacks_le (env : MilvusEnv) (q u : String)
    (k : Nat) (sid : Option String) (dsids : Option (List String))
    (fb : SearchRun) :
    (searchMilvusCore env q u k sid dsids fb).fallbacks ≤ fb.fallbacks + 1 := by
  unfold searchMilvusCore
  (repeat' split)
  all_goals simp_all

/-- No `searchMilvus` run takes the subject fallback more than once. -/
theorem searchMilvus_fallbacks_le_one (env : MilvusEnv) (q u : String)
    (k : Nat) (sid : Option String) (dsids : Option (List String)) :
    (searchMilvus env q u k sid dsids).fallbacks ≤ 1 := by
  unfold searchMilvus
  have h0 := searchMilvusCore_fallbacks_none env q u k sid ⟨[], [], 0⟩
  calc (searchMilvusCore env q u k sid dsids
          (searchMilvusCore env q u k sid none ⟨[], [], 0⟩)).fallbacks
      ≤ (searchMilvusCore env q u k sid none ⟨[], [], 0⟩).fallbacks + 1 :=
        searchMilvusCore_fallbacks_le env q u k sid dsids _
    _ = 1 := by rw [h0]

/-- A missing collection makes the whole run the empty run (milvus.ts:76-79). -/
theorem searchMilvus_collection_missing (env : MilvusEnv) (q u : String)
    (k : Nat) (sid : Option String) (dsids : Option (List String))
    (hc : env.collectionExists = false) :
    searchMilvus env q u k sid dsids = ⟨[], [], 0⟩ := by
  unfold searchMilvus searchMilvusCore
  simp [hc]

/-- A throwing query embedding makes the whole run the empty run: the
exception is caught at milvus.ts:168-171 and `[]` is returned. -/
theorem searchMilvusCore_embed_error (env : MilvusEnv) (q u : String)
    (k : Nat) (sid : Option String) (dsids : Option (List String))
    (fb : SearchRun) (e : String)
    (he : getEmbeddings env.predict q = .error e) :
    searchMilvusCore env q u k sid dsids fb = ⟨[], [], 0⟩ := by
  unfold searchMilvusCore
  by_cases hc : env.collectionExists
  · by_cases hl : env.loadOk
    · simp [hc, hl, he]
    · simp [hc, hl]
  · simp [hc]

/-- A falsy query embedding makes the whole run the empty run
(milvus.ts:94-97). -/
theorem searchMilvusCore_embed_none (env : MilvusEnv) (q u : String)
    (k : Nat) (sid : Option String) (dsids : Option (List String))
    (fb : SearchRun)
    (he : getEmbeddings env.predict q = .ok none) :
    searchMilvusCore env q u k sid dsids fb = ⟨[], [], 0⟩ := by
  unfold searchMilvusCore
  by_cases hc : env.collectionExists
  · by_cases hl : env.loadOk
    · simp [hc, hl, he]
    · simp [hc, hl]
  · simp [hc]

/-- When every engine search matches nothing, the body returns no results. -/
theorem searchMilvusCore_results_nil (env : MilvusEnv) (q u : String)
    (k : Nat) (sid : Option String) (dsids : Option (List String))
    (fb : SearchRun) (hs : ∀ r, env.search r = .ok [])
    (hfb : fb.results = []) :
    (searchMilvusCore env q u k sid dsids fb).results = [] := by
  unfold searchMilvusCore
  (repeat' split)
  all_goals simp_all

/-- When every engine search matches nothing, `searchMilvus` returns no
results (and raises nothing: its value type has no error channel, mirroring
the catch-all returns of milvus.ts). -/
theorem searchMilvus_results_nil (env : MilvusEnv) (q u : String) (k : Nat)
    (sid : Option String) (dsids : Option (List String))
    (hs : ∀ r, env.search r = .ok []) :
    (searchMilvus env q u k sid dsids).results = [] := by
  unfold searchMilvus
  exact searchMilvusCore_results_nil env q u k sid dsids _ hs
    (searchMilvusCore_results_nil env q u k sid none ⟨[], [], 0⟩ hs rfl)

/-- A chunk whose embedding call throws aborts the insert loop with the state
as already inserted (the error is then swallowed, milvus.ts:59-61). -/
theorem insertLoop_embed_error (predict : List String → Except String (List Vec))
    (u : String) (sid : Option String) (dsid : String) (d : ChunkDoc)
    (ds : List ChunkDoc) (st : MilvusState) (e : String)
    (he : getEmbeddings predict d.pageContent = .error e) :
    insertLoop predict u sid dsid (d :: ds) st = st := by
  unfold insertLoop
  rw [he]

/-- Inserting one chunk under a well-behaved per-segment embedding oracle
stores the full chunk text together with the embedding of the part of the
text preceding its first semicolon. -/
theorem insertLoop_single_good (embed : String → Vec) (u dsid t : String)
    (i : Nat) (st : MilvusState) :
    insertLoop (goodPredict embed) u none dsid [⟨t, i⟩] st =
      { st with rows := st.rows ++ [⟨t, embed (firstSegment t), u, "", dsid, i⟩] } := by
  unfold insertLoop
  rw [show (⟨t, i⟩ : ChunkDoc).pageContent = t from rfl,
    getEmbeddings_goodPredict embed t]
  rfl

/-- A successful extraction always ends the run COMPLETED with the extracted
text as content, whatever the embedding and insert outcomes. -/
theorem processFileAsync_ok (env : IngestEnv) (ds u : String)
    (st : MilvusState) (t : String) (h : env.extract = .ok t) :
    (processFileAsync env ds u st).1 = ⟨some t, .COMPLETED⟩ := by
  unfold processFileAsync
  rw [h]

/-- A throwing extraction ends the run ERROR with the failure reason as
content and no index insert. -/
theorem processFileAsync_error (env : IngestEnv) (ds u : String)
    (st : MilvusState) (e : String) (h : env.extract = .error e) :
    processFileAsync env ds u st =
      (⟨some ("Error processing: " ++ e), .ERROR⟩, st) := by
  unfold processFileAsync
  rw [h]

/-- When the collection exists, loading succeeds and the query embeds, the
first engine request of the body carries the run's own filter, limit and
vector. -/
theorem searchMilvusCore_requests_head (env : MilvusEnv) (q u : String)
    (k : Nat) (sid : Option String) (dsids : Option (List String))
    (fb : SearchRun) (v : Vec)
    (hc : env.collectionExists = true) (hl : env.loadOk = true)
    (he : getEmbeddings env.predict q = .ok (some v)) :
    (searchMilvusCore env q u k sid dsids fb).requests.head? =
      some ⟨buildFilter u sid dsids, k, v⟩ := by
  unfold searchMilvusCore
  (repeat' split)
  all_goals simp_all

/-- When the primary engine search of a run carrying both a nonempty
document-id list and a subject matches nothing, the body hands back the
abstracted fallback value with its own request prepended and one more
fallback counted (milvus.ts:120-128). -/
theorem searchMilvusCore_fallback_branch (env : MilvusEnv) (q u : String)
    (k : Nat) (s i : String) (is : List String) (fb : SearchRun) (v : Vec)
    (hc : env.collectionExists = true) (hl : env.loadOk = true)
    (he : getEmbeddings env.predict q = .ok (some v))
    (hs : env.search ⟨buildFilter u (some s) (some (i :: is)), k, v⟩ = .ok []) :
    searchMilvusCore env q u k (some s) (some (i :: is)) fb =
      ⟨fb.results, ⟨buildFilter u (some s) (some (i :: is)), k, v⟩ :: fb.requests,
        fb.fallbacks + 1⟩ := by
  unfold searchMilvusCore
  simp [hc, hl, he, hs]

/-! ## The claims -/

/-- Ingestion environment of the C1 counterexample: the splitter produces two
chunks, the first chunk embeds fine, the second chunk's embedding call
throws. -/
def cexEnvC1 : IngestEnv where
  predict := fun segs => if segs = ["alpha"] then .ok [[1]] else .error "embedding failed"
  extract := .ok "alpha beta"
  splitter := fun _ => ["alpha", "beta"]
  subjectId := none

/-- C1 is false on the code: in this ingestion run the second chunk's
embedding call throws, yet the run ends with the document COMPLETED, not
ERROR, and with exactly one of the two produced chunks inserted into the
index — a COMPLETED document with a partially populated index.  The cause is
the catch-all of `insertEmbeddings` (milvus.ts:59-61), which logs and
swallows the failure instead of propagating it to `processFileAsync`. -/
theorem claim1_cex :
    getEmbeddings cexEnvC1.predict "beta" = .error "embedding failed" ∧
    (cexEnvC1.splitter "alpha beta").length = 2 ∧
    (processFileAsync cexEnvC1 "ds1" "u1" ⟨true, true, []⟩).1.status =
      .COMPLETED ∧
    (processFileAsync cexEnvC1 "ds1" "u1" ⟨true, true, []⟩).1.status ≠
      .ERROR ∧
    (processFileAsync cexEnvC1 "ds1" "u1" ⟨true, true, []⟩).2.rows.length = 1 := by
  decide

/-- C1 amended: a chunk embedding failure does not fail the ingestion run.
The thrown error is swallowed inside `insertEmbeddings` — the insert loop
stops, and the rows inserted before the failure remain — while the run still
persists the extracted text and marks the document COMPLETED whenever
extraction succeeded; so ERROR arises only from failures outside
`insertEmbeddings`, and a COMPLETED document may have only part of its
produced chunks in the index. -/
theorem claim1_thm :
    (∀ (env : IngestEnv) (ds u t : String) (st : MilvusState),
      env.extract = .ok t →
      (processFileAsync env ds u st).1 = ⟨some t, .COMPLETED⟩) ∧
    (∀ (predict : List String → Except String (List Vec)) (u : String)
      (sid : Option String) (dsid : String) (d : ChunkDoc)
      (ds : List ChunkDoc) (st : MilvusState) (e : String),
      getEmbeddings predict d.pageContent = .error e →
      insertLoop predict u sid dsid (d :: ds) st = st) :=
  ⟨fun env ds u t st h => processFileAsync_ok env ds u st t h,
   fun predict u sid dsid d ds st e he =>
    insertLoop_embed_error predict u sid dsid d ds st e he⟩

/-- Witness for the amended C1 at the counterexample run: the run with the
throwing second chunk is COMPLETED with the full extracted text, and the
insert loop starting at the throwing chunk leaves the store untouched. -/
theorem claim1_wit :
    (processFileAsync cexEnvC1 "ds1" "u1" ⟨true, true, []⟩).1 =
      ⟨some "alpha beta", .COMPLETED⟩ ∧
    insertLoop cexEnvC1.predict "u1" none "ds1" [⟨"beta", 1⟩]
      ⟨true, true, []⟩ = ⟨true, true, []⟩ :=
  ⟨claim1_thm.1 cexEnvC1 "ds1" "u1" "alpha beta" ⟨true, true, []⟩ (by decide),
   claim1_thm.2 cexEnvC1.predict "u1" none "ds1" ⟨"beta", 1⟩ []
     ⟨true, true, []⟩ "embedding failed" (by decide)⟩

/-- Query environment of the C2 counterexample: the collection exists and
loads, the generative model is initialized, but every embedding predict call
throws. -/
def cexEnvC2 : QueryEnv where
  menv :=
    { collectionExists := true, loadOk := true
      predict := fun _ => .error "embedding unavailable"
      search := fun _ => .ok [], retrySearch := fun _ => .ok [] }
  dataSourceIdsFor := fun _ => []
  modelInitialized := true
  generate := fun _ _ => .ok (some "an answer")

/-- C2 is false on the code: with every embedding call throwing, the query is
answered HTTP 200 with `success: true` and the canned no-context answer — the
failure is not surfaced as any 5xx-equivalent error.  The cause is
milvus.ts:168-171 (and 94-97): `searchMilvus` turns the embedding failure
into an empty result list, which query.handler.ts:78-86 then treats as
"no relevant information found". -/
theorem claim2_cex :
    (answerUserQuery cexEnvC2 "u1" (some "what is photosynthesis") none).status
      = 200 ∧
    (answerUserQuery cexEnvC2 "u1" (some "what is photosynthesis") none).success
      = true ∧
    (answerUserQuery cexEnvC2 "u1" (some "what is photosynthesis") none).answer
      = some noContextAnswer := by
  decide

/-- C2 amended: when embedding the question text fails (the predict call
throws), `searchMilvus` swallows the failure and returns no results, and the
query is answered HTTP 200, `success: true`, with the canned no-context
answer — it is answered as if no relevant context had been found, never as a
5xx-equivalent error. -/
theorem claim2_thm :
    ∀ (env : QueryEnv) (u q : String) (sid : Option String) (e : String),
      env.modelInitialized = true →
      getEmbeddings env.menv.predict q = .error e →
      answerUserQuery env u (some q) sid =
        ⟨200, true, none, some noContextAnswer, some 0⟩ := by
  intro env u q sid e hm he
  have hrun : searchMilvusOpts env.menv q u (queryOptions env sid) = ⟨[], [], 0⟩ := by
    unfold searchMilvusOpts searchMilvus
    exact searchMilvusCore_embed_error env.menv q u _ _ _ _ e he
  unfold answerUserQuery
  simp [hm, hrun]

/-- Witness for the amended C2 at a concrete run with a throwing embedding
call. -/
theorem claim2_wit :
    answerUserQuery cexEnvC2 "u1" (some "why is the sky blue") none =
      ⟨200, true, none, some noContextAnswer, some 0⟩ :=
  claim2_thm cexEnvC2 "u1" "why is the sky blue" none "embedding unavailable"
    rfl (by decide)

/-- C3 (confirmed): scope resolution of a query.  With a subject whose lookup
yields at least one document id, the primary filter is tenant equality
conjoined with the `data_source_id` disjunction over that id set; with a
subject but no document id, it is tenant equality conjoined with subject
equality; with no subject it is tenant equality alone.  The last conjunct
ties the built filter to the run: under the usual preconditions the first
engine request of the query's search carries exactly this primary filter. -/
theorem claim3_thm :
    ∀ (env : QueryEnv) (u s : String),
      (env.dataSourceIdsFor s ≠ [] →
        buildFilter u (queryOptions env (some s)).subjectId
            (queryOptions env (some s)).dataSourceIds =
          userClause u ++ " && (" ++ dsClause (env.dataSourceIdsFor s) ++ ")") ∧
      (env.dataSourceIdsFor s = [] →
        buildFilter u (queryOptions env (some s)).subjectId
            (queryOptions env (some s)).dataSourceIds =
          userClause u ++ " && subject_id == \"" ++ s ++ "\"") ∧
      (buildFilter u (queryOptions env none).subjectId
          (queryOptions env none).dataSourceIds = userClause u) ∧
      (∀ (q : String) (sid : Option String) (v : Vec),
        env.menv.collectionExists = true → env.menv.loadOk = true →
        getEmbeddings env.menv.predict q = .ok (some v) →
        (searchMilvusOpts env.menv q u (queryOptions env sid)).requests.head? =
          some ⟨buildFilter u (queryOptions env sid).subjectId
            (queryOptions env sid).dataSourceIds, (queryOptions env sid).topK, v⟩) := by
  intro env u s
  refine ⟨?_, ?_, ?_, ?_⟩
  · intro hne
    cases hids : env.dataSourceIdsFor s with
    | nil => exact absurd hids hne
    | cons i is => simp [queryOptions, hids, buildFilter]
  · intro hnil
    simp [queryOptions, hnil, buildFilter]
  · simp [queryOptions, buildFilter]
  · intro q sid v hc hl he
    unfold searchMilvusOpts searchMilvus
    exact searchMilvusCore_requests_head env.menv q u _ _ _ _ v hc hl he

/-- Query environment of the C3 witness: subject `s1` owns two documents,
subject `s2` owns none, the collection is up and embeddings succeed. -/
def envC3 : QueryEnv where
  menv :=
    { collectionExists := true, loadOk := true
      predict := goodPredict fun s => [(s.length : Int)]
      search := fun _ => .ok [], retrySearch := fun _ => .ok [] }
  dataSourceIdsFor := fun s => if s = "s1" then ["d1", "d2"] else []
  modelInitialized := true
  generate := fun _ _ => .ok (some "an answer")

/-- Witness for C3: the three filter shapes at a concrete environment, and
the first engine request of a no-subject query run carrying the tenant-only
filter. -/
theorem claim3_wit :
    buildFilter "u1" (queryOptions envC3 (some "s1")).subjectId
        (queryOptions envC3 (some "s1")).dataSourceIds =
      userClause "u1" ++ " && (" ++ dsClause ["d1", "d2"] ++ ")" ∧
    buildFilter "u1" (queryOptions envC3 (some "s2")).subjectId
        (queryOptions envC3 (some "s2")).dataSourceIds =
      userClause "u1" ++ " && subject_id == \"" ++ "s2" ++ "\"" ∧
    buildFilter "u1" (queryOptions envC3 none).subjectId
        (queryOptions envC3 none).dataSourceIds = userClause "u1" ∧
    (searchMilvusOpts envC3.menv "hi" "u1" (queryOptions envC3 none)).requests.head? =
      some ⟨buildFilter "u1" (queryOptions envC3 none).subjectId
        (queryOptions envC3 none).dataSourceIds, (queryOptions envC3 none).topK,
        [2]⟩ :=
  ⟨by
    have h := (claim3_thm envC3 "u1" "s1").1 (by decide)
    simpa using h,
   (claim3_thm envC3 "u1" "s2").2.1 (by decide),
   (claim3_thm envC3 "u1" "s1").2.2.1,
   (claim3_thm envC3 "u1" "s1").2.2.2 "hi" none [2] rfl rfl (by decide)⟩

/-- Query environment of the C4 counterexample: subject `s1` owns document
`d1`; the engine returns nothing for any filter except the subject-only
filter, for which it would return a legacy subject-tagged hit. -/
def cexEnvC4 : QueryEnv where
  menv :=
    { collectionExists := true, loadOk := true
      predict := goodPredict fun _ => [1]
      search := fun r =>
        if r.filter = buildFilter "u1" (some "s1") none then
          .ok [⟨"legacy chunk", 9, 0⟩]
        else .ok []
      retrySearch := fun _ => .ok [] }
  dataSourceIdsFor := fun _ => ["d1"]
  modelInitialized := true
  generate := fun _ _ => .ok (some "an answer")

set_option maxRecDepth 40000 in
/-- C4 is false on the code as an end-to-end property of queries: in this
query a subject was given, the primary filter is the document-id-list form
and the primary search returns zero results, and the engine would return a
hit under the subject-only filter — yet the run issues exactly one engine
request, takes zero fallback retries, and the query is answered with the
no-context answer.  The cause: the fallback (milvus.ts:122-127) requires both
`dataSourceIds` and `subjectId` in the options, but the handler
(query.handler.ts:66-71) sets them mutually exclusively, so the retry never
fires for a real query. -/
theorem claim4_cex :
    (searchMilvusOpts cexEnvC4.menv "why" "u1"
        (queryOptions cexEnvC4 (some "s1"))).requests.length = 1 ∧
    (searchMilvusOpts cexEnvC4.menv "why" "u1"
        (queryOptions cexEnvC4 (some "s1"))).fallbacks = 0 ∧
    (searchMilvusOpts cexEnvC4.menv "why" "u1"
        (queryOptions cexEnvC4 (some "s1"))).results = [] ∧
    cexEnvC4.menv.search ⟨buildFilter "u1" (some "s1") none, 3, [1]⟩ =
      .ok [⟨"legacy chunk", 9, 0⟩] ∧
    answerUserQuery cexEnvC4 "u1" (some "why") (some "s1") =
      ⟨200, true, none, some noContextAnswer, some 0⟩ := by
  decide

/-- C4 amended: `searchMilvus` itself retries exactly once with the
subject-only filter when its options carry both a nonempty document-id list
and a subject and the primary search returns zero results, and no run ever
takes more than one fallback retry; but the query handler never passes a
subject together with document ids, so for queries the zero-result
document-id-form search is not retried at all. -/
theorem claim4_thm :
    (∀ (env : MilvusEnv) (q u : String) (k : Nat) (sid : Option String)
      (dsids : Option (List String)),
      (searchMilvus env q u k sid dsids).fallbacks ≤ 1) ∧
    (∀ (env : MilvusEnv) (q u s i : String) (k : Nat) (is : List String)
      (v : Vec),
      env.collectionExists = true → env.loadOk = true →
      getEmbeddings env.predict q = .ok (some v) →
      env.search ⟨buildFilter u (some s) (some (i :: is)), k, v⟩ = .ok [] →
      (searchMilvus env q u k (some s) (some (i :: is))).fallbacks = 1 ∧
      (searchMilvus env q u k (some s) (some (i :: is))).requests =
        ⟨buildFilter u (some s) (some (i :: is)), k, v⟩ ::
          (searchMilvus env q u k (some s) none).requests ∧
      (searchMilvus env q u k (some s) (some (i :: is))).results =
        (searchMilvus env q u k (some s) none).results) ∧
    (∀ (env : QueryEnv) (sid : Option String) (ids : List String),
      (queryOptions env sid).dataSourceIds = some ids →
      (queryOptions env sid).subjectId = none) := by
  refine ⟨searchMilvus_fallbacks_le_one, ?_, ?_⟩
  · intro env q u s i k is v hc hl he hs
    unfold searchMilvus
    rw [searchMilvusCore_fallback_branch env q u k s i is _ v hc hl he hs]
    exact ⟨by simp [searchMilvusCore_fallbacks_none], rfl, rfl⟩
  · intro env sid ids h
    cases sid with
    | none => simp [queryOptions] at h
    | some s =>
      unfold queryOptions at h ⊢
      by_cases hids : (env.dataSourceIdsFor s).isEmpty <;> simp [hids] at h ⊢

/-- Witness for the amended C4: a `searchMilvus` run whose options carry both
a nonempty document-id list and a subject does retry once with the
subject-only filter, and the handler-built options of the counterexample
query carry no subject next to its document ids. -/
theorem claim4_wit :
    (searchMilvus cexEnvC4.menv "why" "u1" 3 (some "s1") (some ["d1"])).fallbacks
      = 1 ∧
    (searchMilvus cexEnvC4.menv "why" "u1" 3 (some "s1") (some ["d1"])).requests =
      ⟨buildFilter "u1" (some "s1") (some ["d1"]), 3, [1]⟩ ::
        (searchMilvus cexEnvC4.menv "why" "u1" 3 (some "s1") none).requests ∧
    (queryOptions cexEnvC4 (some "s1")).subjectId = none ∧
    (searchMilvus cexEnvC4.menv "why" "u1" 3 (some "s1") (some ["d1"])).fallbacks
      ≤ 1 :=
  ⟨((claim4_thm.2.1 cexEnvC4.menv "why" "u1" "s1" "d1" 3 [] [1] rfl rfl
      (by decide) (by decide))).1,
   ((claim4_thm.2.1 cexEnvC4.menv "why" "u1" "s1" "d1" 3 [] [1] rfl rfl
      (by decide) (by decide))).2.1,
   claim4_thm.2.2 cexEnvC4 (some "s1") ["d1"] (by decide),
   claim4_thm.1 cexEnvC4.menv "why" "u1" 3 (some "s1") (some ["d1"])⟩

/-- C5 (confirmed): a search against a missing collection is the empty run —
no results, no engine request, no error (the embedded value type has no error
channel because every failure path of milvus.ts returns `[]`) — and a search
whose every engine request matches nothing returns the empty result list,
also without error. -/
theorem claim5_thm :
    ∀ (env : MilvusEnv) (q u : String) (k : Nat) (sid : Option String)
      (dsids : Option (List String)),
      (env.collectionExists = false →
        searchMilvus env q u k sid dsids = ⟨[], [], 0⟩) ∧
      ((∀ r, env.search r = .ok []) →
        (searchMilvus env q u k sid dsids).results = []) := by
  intro env q u k sid dsids
  exact ⟨fun hc => searchMilvus_collection_missing env q u k sid dsids hc,
         fun hs => searchMilvus_results_nil env q u k sid dsids hs⟩

/-- Milvus environment of the C5 witness with no collection yet. -/
def envC5a : MilvusEnv where
  collectionExists := false
  loadOk := true
  predict := goodPredict fun _ => [1]
  search := fun _ => .ok []
  retrySearch := fun _ => .ok []

/-- Milvus environment of the C5 witness whose collection exists but no chunk
matches any filter. -/
def envC5b : MilvusEnv where
  collectionExists := true
  loadOk := true
  predict := goodPredict fun _ => [1]
  search := fun _ => .ok []
  retrySearch := fun _ => .ok []

/-- Witness for C5: the two degraded-but-errorless searches at concrete
environments. -/
theorem claim5_wit :
    searchMilvus envC5a "q" "u1" 2 none none = ⟨[], [], 0⟩ ∧
    (searchMilvus envC5b "q" "u1" 2 (some "s1") (some ["d1"])).results = [] :=
  ⟨(claim5_thm envC5a "q" "u1" 2 none none).1 rfl,
   (claim5_thm envC5b "q" "u1" 2 (some "s1") (some ["d1"])).2 fun _ => rfl⟩

/-- C6 (confirmed): every engine search request a `searchMilvus` run issues —
the initial search, the subject-fallback search and the retry after the
self-healing index rebuild — carries a filter string that begins with the
tenant clause `user_id == "<tenant>"`, so no request can omit the tenant
constraint. -/
theorem claim6_thm :
    ∀ (env : MilvusEnv) (q u : String) (k : Nat) (sid : Option String)
      (dsids : Option (List String)) (r : SearchReq),
      r ∈ (searchMilvus env q u k sid dsids).requests →
      ∃ rest, r.filter = userClause u ++ rest :=
  fun env q u k sid dsids r hr =>
    (searchMilvus_requests_spec env q u k sid dsids r hr).1

/-- Milvus environment of the C6 witness: the collection is up, embeddings
succeed, no engine search matches, so the run issues exactly its primary
request. -/
def envC6 : MilvusEnv where
  collectionExists := true
  loadOk := true
  predict := goodPredict fun _ => [7]
  search := fun _ => .ok []
  retrySearch := fun _ => .ok []

/-- Witness for C6 at a concrete run: its (single) issued request carries a
filter beginning with the tenant clause. -/
theorem claim6_wit :
    ∃ rest,
      (⟨buildFilter "u1" (some "s1") none, 2, [7]⟩ : SearchReq).filter =
        userClause "u1" ++ rest :=
  claim6_thm envC6 "a question" "u1" 2 (some "s1") none
    ⟨buildFilter "u1" (some "s1") none, 2, [7]⟩ (by decide)

/-- Ingestion environment of the C7 counterexample: one chunk whose embedding
call always throws. -/
def cexEnvC7 : IngestEnv where
  predict := fun _ => .error "embedding failed"
  extract := .ok "gamma"
  splitter := fun t => [t]
  subjectId := some "s1"

/-- C7 is false on the code in its failure clause: this run has a failure (the
only chunk's embedding call throws, the spec's EmbeddingError), yet it ends
COMPLETED with the extracted text as content — not ERROR with the failure
reason — and zero index inserts.  The cause is again the swallowed catch of
milvus.ts:59-61: only failures that reach `processFileAsync`'s catch (e.g.
extraction) produce the ERROR transition. -/
theorem claim7_cex :
    getEmbeddings cexEnvC7.predict "gamma" = .error "embedding failed" ∧
    (processFileAsync cexEnvC7 "ds1" "u1" ⟨true, true, []⟩).1 =
      ⟨some "gamma", .COMPLETED⟩ ∧
    (processFileAsync cexEnvC7 "ds1" "u1" ⟨true, true, []⟩).2.rows = [] := by
  decide

/-- C7 amended: each ingestion run makes a single status transition out of
PROCESSING — the final record is COMPLETED or ERROR, never both and nothing
else, and the embedded run is one function evaluation with no retry.
COMPLETED with the extracted text as content whenever extraction succeeds
(even if embedding or insertion failed internally, those errors being
swallowed inside `insertEmbeddings`); ERROR with the failure reason as
content exactly when extraction throws. -/
theorem claim7_thm :
    ∀ (env : IngestEnv) (ds u : String) (st : MilvusState),
      ((processFileAsync env ds u st).1.status = .COMPLETED ∨
        (processFileAsync env ds u st).1.status = .ERROR) ∧
      (∀ t, env.extract = .ok t →
        (processFileAsync env ds u st).1 = ⟨some t, .COMPLETED⟩) ∧
      (∀ e, env.extract = .error e →
        processFileAsync env ds u st =
          (⟨some ("Error processing: " ++ e), .ERROR⟩, st)) := by
  intro env ds u st
  refine ⟨?_, ?_, ?_⟩
  · cases h : env.extract with
    | error e => exact .inr (by rw [processFileAsync_error env ds u st e h])
    | ok t => exact .inl (by rw [processFileAsync_ok env ds u st t h])
  · exact fun t h => processFileAsync_ok env ds u st t h
  · exact fun e h => processFileAsync_error env ds u st e h

/-- Ingestion environment of the C7 witness whose extraction throws. -/
def envC7err : IngestEnv where
  predict := fun _ => .ok [[1]]
  extract := .error "unreadable file"
  splitter := fun t => [t]
  subjectId := none

/-- Witness for the amended C7: the ERROR transition of a run whose
extraction throws, and the COMPLETED transition of the counterexample run. -/
theorem claim7_wit :
    processFileAsync envC7err "ds1" "u1" ⟨true, true, []⟩ =
      (⟨some ("Error processing: " ++ "unreadable file"), .ERROR⟩,
        ⟨true, true, []⟩) ∧
    (processFileAsync cexEnvC7 "ds2" "u1" ⟨true, true, []⟩).1 =
      ⟨some "gamma", .COMPLETED⟩ :=
  ⟨(claim7_thm envC7err "ds1" "u1" ⟨true, true, []⟩).2.2 "unreadable file" rfl,
   (claim7_thm cexEnvC7 "ds2" "u1" ⟨true, true, []⟩).2.1 "gamma" rfl⟩

/-- Ingestion environment of the C8 counterexample: extraction yields the
empty text (as gemini.service.ts:93-104 does when the model returns no text —
it only warns and returns the empty string), the chunker being the
spec-modelled one. -/
def cexEnvC8 : IngestEnv where
  predict := goodPredict fun _ => [1]
  extract := .ok ""
  splitter := chunkText
  subjectId := none

/-- C8 is false on the code in its error clause: chunking empty text does
produce the empty chunk sequence, but the pipeline does not treat it as an
error — the run performs zero inserts and still ends with the document
COMPLETED (content the empty string), silently completing on empty input. -/
theorem claim8_cex :
    chunkText "" = [] ∧
    (processFileAsync cexEnvC8 "ds1" "u1" ⟨true, true, []⟩).1 =
      ⟨some "", .COMPLETED⟩ ∧
    (processFileAsync cexEnvC8 "ds1" "u1" ⟨true, true, []⟩).2.rows = [] := by
  decide

/-- C8 amended: chunking empty input yields the empty chunk sequence, and an
ingestion run whose extracted text is empty (hence whose splitter yields no
chunks) inserts nothing and still marks the document COMPLETED with empty
content — the pipeline does not treat empty extracted text as an error. -/
theorem claim8_thm :
    chunkText "" = [] ∧
    ∀ (env : IngestEnv) (ds u : String) (st : MilvusState),
      env.extract = .ok "" → env.splitter "" = [] →
      processFileAsync env ds u st = (⟨some "", .COMPLETED⟩, st) := by
  refine ⟨by decide, ?_⟩
  intro env ds u st hex hsp
  unfold processFileAsync
  rw [hex]
  simp [hsp, insertEmbeddings, insertLoop]

/-- Witness for the amended C8 at the counterexample environment. -/
theorem claim8_wit :
    processFileAsync cexEnvC8 "ds1" "u2" ⟨true, true, []⟩ =
      (⟨some "", .COMPLETED⟩, ⟨true, true, []⟩) :=
  claim8_thm.2 cexEnvC8 "ds1" "u2" ⟨true, true, []⟩ rfl (by decide)

/-- C9 (confirmed): `resetMilvusIndex` never touches stored entities and
never drops an existing collection — the rows after any reset are exactly the
rows before, and a collection that existed still exists — and it returns the
`{ success, message }` record: the fixed success message when it reports
success, and the thrown error's message when the initial collection listing
fails. -/
theorem claim9_thm :
    ∀ (env : AdminEnv) (st : MilvusState),
      (resetMilvusIndex env st).1.rows = st.rows ∧
      (st.collectionExists = true →
        (resetMilvusIndex env st).1.collectionExists = true) ∧
      ((resetMilvusIndex env st).2.success = true →
        (resetMilvusIndex env st).2.message = "Milvus index reset successfully") ∧
      (∀ e, env.showErr = some e → (resetMilvusIndex env st).2 = ⟨false, e⟩) := by
  intro env st
  rcases env with ⟨se, ce, de, df, ie, le⟩
  rcases st with ⟨cex, iex, rows⟩
  cases se <;> cases ce <;> cases de <;> cases df <;> cases ie <;> cases le <;>
    cases cex <;> cases iex <;>
      simp [resetMilvusIndex, createCollection, createIndex, dropIndexStep]

/-- Admin environment of the C9 witness where every external call succeeds. -/
def envC9ok : AdminEnv where
  showErr := none
  createCollErr := none
  dropIdxErr := none
  describeIdxFails := false
  createIdxErr := none
  loadErr := none

/-- Admin environment of the C9 witness whose collection listing throws. -/
def envC9down : AdminEnv where
  showErr := some "milvus down"
  createCollErr := none
  dropIdxErr := none
  describeIdxFails := false
  createIdxErr := none
  loadErr := none

/-- Witness for C9 at a store holding one chunk: the reset preserves the rows
and the collection, reports the success message on success, and reports the
failure message when the collection listing throws. -/
theorem claim9_wit :
    (resetMilvusIndex envC9ok ⟨true, true, [⟨"t", [1], "u1", "", "d1", 0⟩]⟩).1.rows
      = [⟨"t", [1], "u1", "", "d1", 0⟩] ∧
    (resetMilvusIndex envC9ok ⟨true, true, [⟨"t", [1], "u1", "", "d1", 0⟩]⟩).1.collectionExists
      = true ∧
    (resetMilvusIndex envC9ok ⟨true, true, [⟨"t", [1], "u1", "", "d1", 0⟩]⟩).2.message
      = "Milvus index reset successfully" ∧
    (resetMilvusIndex envC9down ⟨true, true, [⟨"t", [1], "u1", "", "d1", 0⟩]⟩).2
      = ⟨false, "milvus down"⟩ :=
  ⟨(claim9_thm envC9ok ⟨true, true, [⟨"t", [1], "u1", "", "d1", 0⟩]⟩).1,
   (claim9_thm envC9ok ⟨true, true, [⟨"t", [1], "u1", "", "d1", 0⟩]⟩).2.1 rfl,
   (claim9_thm envC9ok ⟨true, true, [⟨"t", [1], "u1", "", "d1", 0⟩]⟩).2.2.1
     (by decide),
   (claim9_thm envC9down ⟨true, true, [⟨"t", [1], "u1", "", "d1", 0⟩]⟩).2.2.2
     "milvus down" rfl⟩

/-- C10 (confirmed, implicit behavior): the embedding client splits its input
on `';'` and returns only the first segment's embedding, so any text
containing a semicolon is embedded as strictly less than the whole text (the
part before the first semicolon); an inserted chunk therefore stores the full
chunk text next to a vector embedding only its first segment, and every
engine search request of a query run under such an oracle carries the vector
of the question's first segment only. -/
theorem claim10_thm :
    ∀ (embed : String → Vec) (t : String),
      getEmbeddings (goodPredict embed) t = .ok (some (embed (firstSegment t))) ∧
      (';' ∈ t.data → (firstSegment t).length < t.length) ∧
      (∀ (u dsid : String) (i : Nat) (st : MilvusState),
        insertLoop (goodPredict embed) u none dsid [⟨t, i⟩] st =
          { st with rows := st.rows ++
              [⟨t, embed (firstSegment t), u, "", dsid, i⟩] }) ∧
      (∀ (env : MilvusEnv) (u : String) (k : Nat) (sid : Option String)
        (dsids : Option (List String)) (r : SearchReq),
        env.predict = goodPredict embed →
        r ∈ (searchMilvus env t u k sid dsids).requests →
        r.vector = embed (firstSegment t)) := by
  intro embed t
  refine ⟨getEmbeddings_goodPredict embed t, firstSegment_length_lt t, ?_, ?_⟩
  · exact fun u dsid i st => insertLoop_single_good embed u dsid t i st
  · intro env u k sid dsids r hpred hr
    refine (searchMilvus_requests_spec env t u k sid dsids r hr).2
      (embed (firstSegment t)) ?_
    rw [hpred]
    exact getEmbeddings_goodPredict embed t

/-- The length-of-text embedding oracle of the C10 witness. -/
def embedLen : String → Vec := fun s => [(s.length : Int)]

/-- Milvus environment of the C10 witness using the length oracle. -/
def envC10 : MilvusEnv where
  collectionExists := true
  loadOk := true
  predict := goodPredict embedLen
  search := fun _ => .ok []
  retrySearch := fun _ => .ok []

/-- Witness for C10 at the text `hello;world`: the client returns the
embedding of `hello` only, which is strictly shorter than the whole text;
inserting the chunk stores the full text with that vector; and the query
run's request carries that vector. -/
theorem claim10_wit :
    getEmbeddings (goodPredict embedLen) "hello;world" =
      .ok (some (embedLen (firstSegment "hello;world"))) ∧
    (firstSegment "hello;world").length < ("hello;world" : String).length ∧
    insertLoop (goodPredict embedLen) "u1" none "d1" [⟨"hello;world", 0⟩]
      ⟨true, true, []⟩ =
      { (⟨true, true, []⟩ : MilvusState) with rows :=
          (⟨true, true, []⟩ : MilvusState).rows ++
            [⟨"hello;world", embedLen (firstSegment "hello;world"), "u1", "",
              "d1", 0⟩] } ∧
    (⟨buildFilter "u1" none none, 2,
        embedLen (firstSegment "hello;world")⟩ : SearchReq).vector =
      embedLen (firstSegment "hello;world") :=
  ⟨(claim10_thm embedLen "hello;world").1,
   (claim10_thm embedLen "hello;world").2.1 (by decide),
   (claim10_thm embedLen "hello;world").2.2.1 "u1" "d1" 0 ⟨true, true, []⟩,
   (claim10_thm embedLen "hello;world").2.2.2 envC10 "u1" 2 none none
     ⟨buildFilter "u1" none none, 2, embedLen (firstSegment "hello;world")⟩
     rfl (by decide)⟩

end LearnAbility
